import Mathlib

/-!
Verification of the De Vinci Moodle scraping core (src/scraper.py).

The development shallowly embeds the browser-session lifecycle manager and
the DOM-extraction pipelines of scraper.py:

- the DOM consumed by the two in-page extraction scripts is modelled as
  explicit data (course items with an optional content column, timeline
  items grouped under an optional date heading);
- the global module state (the five module-level references) is a record of
  presence flags;
- nondeterminism of the outside world (which awaited step throws, whether
  the portal session is already authenticated, what the display attribute
  reads) is an explicit environment parameter of each operation;
- Python exceptions are values: fallible steps are driven by the
  environment, and an uncaught exception is an Except.error result.

Every definition follows the corresponding Python/JavaScript code of
src/scraper.py, line by line.
-/

namespace DeVinci

/-! ## String helpers

Python str.strip / JS String.trim remove whitespace at both ends; JS
String.replace with a plain-string pattern replaces only the first
occurrence. Both are modelled structurally over the character list so that
they evaluate by kernel reduction. -/

/-- Whitespace trim at both ends, modelling JS innerText.trim(). -/
def jsTrim (s : String) : String :=
  String.mk (((s.data.dropWhile Char.isWhitespace).reverse.dropWhile Char.isWhitespace).reverse)

/-- Remove the first occurrence of pat from a character list. -/
def removeFirstOccur (pat : List Char) : List Char → List Char
  | [] => []
  | c :: rest =>
    if pat.isPrefixOf (c :: rest) then (c :: rest).drop pat.length
    else c :: removeFirstOccur pat rest

/-- JS fullText.replace(pat, empty string): only the first occurrence is
replaced (scraper.py line 210). -/
def replaceFirstWithEmpty (s pat : String) : String :=
  String.mk (removeFirstOccur pat.data s.data)

/-! ## Data model: extracted records (spec section 3) -/

/-- Record pushed by the in-page course script (scraper.py lines 213-219). -/
structure CourseRecord where
  name : String
  url : String
  category : String
  summary : String
  progress : String
deriving DecidableEq

/-- Record pushed by the in-page timeline script (scraper.py lines 124-129). -/
structure DeadlineEvent where
  date : String
  title : String
  url : String
  time : String
deriving DecidableEq

/-! ## DOM model

The in-page scripts read a small, fixed set of sub-elements of each item;
the DOM is modelled by exactly those observables. -/

/-- The content column (selector .col-md-9) of a course item: the optional
name link (innerText, href), the optional category span text, the optional
summary div text, and the optional full text of the progress element
parent (scraper.py lines 188-211). -/
structure ColContent where
  nameLink : Option (String × String)
  catSpan : Option String
  summaryDiv : Option String
  progressFullText : Option String
deriving DecidableEq

/-- One div.course-summaryitem node; the content column may be absent
(scraper.py lines 188-189). -/
structure CourseItemDOM where
  colContent : Option ColContent
deriving DecidableEq

/-- One .timeline-event-list-item node: the optional name link
(innerText, href) and the optional small.text-right text
(scraper.py lines 108-112). -/
structure TimelineItemDOM where
  nameLink : Option (String × String)
  timeEl : Option String
deriving DecidableEq

/-- One .list-group of timeline items together with the h5 text of its
previous sibling when that sibling exists and holds an h5
(scraper.py lines 114-122). -/
structure TimelineGroupDOM where
  dateHeader : Option String
  items : List TimelineItemDOM
deriving DecidableEq

/-! ## Extraction Engine: in-page scripts (scraper.py lines 102-133 and 180-225) -/

/-- Course item extraction (scraper.py lines 185-223): the item is skipped
exactly when the content column is absent; a missing name link yields the
placeholder name Unknown and url #, a missing category span yields N/A, a
missing summary yields the empty string, and the progress text is the
parent full text with the first occurrence of the completion word removed
and then trimmed. -/
def extractCourseItem (it : CourseItemDOM) : Option CourseRecord :=
  it.colContent.map fun col =>
    { name := (col.nameLink.map fun nl => jsTrim nl.1).getD "Unknown"
      url := (col.nameLink.map fun nl => nl.2).getD "#"
      category := (col.catSpan.map jsTrim).getD "N/A"
      summary := (col.summaryDiv.map jsTrim).getD ""
      progress := (col.progressFullText.map fun t => jsTrim (replaceFirstWithEmpty t "terminé")).getD "" }

/-- The ordered record sequence returned by the in-page course script. -/
def extractCourses (items : List CourseItemDOM) : List CourseRecord :=
  items.filterMap extractCourseItem

/-- The date string an event inherits from its group (scraper.py lines
114-122): the trimmed heading text, or the Unknown date sentinel when no
heading is discoverable. -/
def groupDate (g : TimelineGroupDOM) : String :=
  (g.dateHeader.map jsTrim).getD "Unknown date"

/-- Timeline extraction (scraper.py lines 104-132): items without a name
link are skipped (line 109); otherwise title and url come from the link,
time from the secondary text node (empty string when absent), date from
the group heading. -/
def extractTimeline (groups : List TimelineGroupDOM) : List DeadlineEvent :=
  groups.flatMap fun g =>
    g.items.filterMap fun it =>
      it.nameLink.map fun nl =>
        { date := groupDate g
          title := jsTrim nl.1
          url := nl.2
          time := (it.timeEl.map jsTrim).getD "" }

/-! ## Extraction Engine: formatting (scraper.py lines 135-141 and 227-239) -/

/-- One display line per course record (scraper.py lines 228-236): prefix
and name, then the category in parentheses when truthy and distinct from
N/A, then the progress fragment when truthy. -/
def formatCourse (r : CourseRecord) : String :=
  let base := "📚 " ++ r.name
  let base := if r.category ≠ "" ∧ r.category ≠ "N/A" then base ++ " (" ++ r.category ++ ")" else base
  if r.progress ≠ "" then base ++ " - " ++ r.progress else base

/-- One display line per deadline event (scraper.py lines 136-138). -/
def formatEvent (e : DeadlineEvent) : String :=
  "⏰ " ++ e.date ++ " " ++ e.time ++ " - " ++ e.title

/-- Newline-joined course display string with the empty-result sentinel
(scraper.py line 239). -/
def courseListString (items : List CourseItemDOM) : String :=
  let lines := (extractCourses items).map formatCourse
  if lines = [] then "No courses found." else String.intercalate "\n" lines

/-- Newline-joined deadline display string with the empty-result sentinel
(scraper.py line 141). -/
def timelineString (groups : List TimelineGroupDOM) : String :=
  let lines := (extractTimeline groups).map formatEvent
  if lines = [] then "No deadlines found." else String.intercalate "\n" lines

/-- The execution-error display value built from a caught exception message
(scraper.py lines 145, 243, 390, 395, 417, 422). -/
def errorDisplay (msg : String) : String :=
  "Error: " ++ msg

/-! ## Display-Mode Controller (scraper.py lines 15-71) -/

/-- Environment of force_summary_view: what the page reports at each step.
displayAfterToggle is what the data-display attribute reads after the
summary option has been clicked. -/
structure CoursePage where
  containerVisible : Bool
  display : String
  primaryDropdown : Bool
  secondaryDropdown : Bool
  summaryOption : Bool
  displayAfterToggle : String
deriving DecidableEq

/-- Observable outcome of force_summary_view: the returned boolean, the
last value read from the data-display attribute during the call (none when
no read happened), and whether the summary option was clicked. -/
structure FSVResult where
  result : Bool
  lastRead : Option String
  clickedSummary : Bool
deriving DecidableEq

/-- force_summary_view (scraper.py lines 15-71). A missing page returns
false (line 22). A container-visibility timeout raises, is caught at line
69 and returns false. A summary reading returns true at once (line 36).
Clicking the dropdown when both selector shapes match zero elements raises,
is caught and returns false. A missing summary option returns false (line
67). Otherwise the option is clicked and the re-read attribute decides the
result (lines 58-64). -/
def force_summary_view (hasPage : Bool) (p : CoursePage) : FSVResult :=
  if hasPage = false then ⟨false, none, false⟩
  else if p.containerVisible = false then ⟨false, none, false⟩
  else if p.display = "summary" then ⟨true, some p.display, false⟩
  else if (p.primaryDropdown || p.secondaryDropdown) = false then ⟨false, some p.display, false⟩
  else if p.summaryOption = false then ⟨false, some p.display, false⟩
  else ⟨p.displayAfterToggle == "summary", some p.displayAfterToggle, true⟩

/-! ## Extraction pipelines with failure environment
(scraper.py lines 73-145 and 147-243) -/

/-- Which awaited pipeline step, if any, raises inside get_course_list or
get_timeline_events; the exception is caught at the pipeline boundary. -/
inductive PipeEnv where
  | ok
  | sectionTimeout (msg : String)
  | containerTimeout (msg : String)
  | evalThrows (msg : String)
deriving DecidableEq

/-- get_course_list (scraper.py lines 147-243): a raised step is converted
to an error display string at the boundary (lines 241-243); on the normal
path force_summary_view runs first and its boolean result is discarded
(line 167), then the in-page script result is formatted. -/
def get_course_list (env : PipeEnv) (hasPage : Bool) (p : CoursePage)
    (items : List CourseItemDOM) : String :=
  if hasPage = false then "Error: Scraper not connected"
  else match env with
  | .sectionTimeout m => errorDisplay m
  | .containerTimeout m => errorDisplay m
  | .evalThrows m => errorDisplay m
  | .ok =>
    let _fsv := force_summary_view hasPage p
    courseListString items

/-- get_timeline_events (scraper.py lines 73-145): a raised step is
converted to an error display string at the boundary (lines 143-145). -/
def get_timeline_events (env : PipeEnv) (hasPage : Bool)
    (groups : List TimelineGroupDOM) : String :=
  if hasPage = false then "Error: Scraper not connected"
  else match env with
  | .sectionTimeout m => errorDisplay m
  | .containerTimeout m => errorDisplay m
  | .evalThrows m => errorDisplay m
  | .ok => timelineString groups

/-! ## Session Manager: module-level state (scraper.py lines 249-334) -/

/-- Presence of the five module-level references _browser, _context, _page,
_scraper, _playwright (scraper.py lines 251-255). -/
structure GlobalState where
  browser : Bool
  context : Bool
  page : Bool
  scraper : Bool
  playwright : Bool
deriving DecidableEq

/-- The state in which every module-level reference is None. -/
def emptyState : GlobalState := ⟨false, false, false, false, false⟩

/-- Which close step, if any, raises inside cleanup_browser. -/
inductive CleanupEnv where
  | allOk
  | pageCloseThrows (msg : String)
  | contextCloseThrows (msg : String)
  | stopThrows (msg : String)
deriving DecidableEq

/-- The three close operations of cleanup_browser in source order
(scraper.py lines 267-272). -/
inductive CStep where
  | closePage
  | closeContext
  | stopPlaywright
deriving DecidableEq

/-- The message a given step raises under the given environment, if any. -/
def stepThrow : CleanupEnv → CStep → Option String
  | .pageCloseThrows m, .closePage => some m
  | .contextCloseThrows m, .closeContext => some m
  | .stopThrows m, .stopPlaywright => some m
  | _, _ => none

/-- One guarded step of the cleanup body: once an exception is pending the
remaining steps of the single try block are not reached; otherwise the step
is attempted when its reference is set. -/
def attemptStep (cur : List CStep × Option String) (present : Bool) (s : CStep)
    (env : CleanupEnv) : List CStep × Option String :=
  match cur with
  | (steps, some e) => (steps, some e)
  | (steps, none) => if present then (steps ++ [s], stepThrow env s) else (steps, none)

/-- The close steps actually attempted by the single try block of
cleanup_browser (scraper.py lines 266-272), and the exception it raised,
if any, which line 273 catches and logs. -/
def cleanup_attempts (st : GlobalState) (env : CleanupEnv) : List CStep × Option String :=
  attemptStep
    (attemptStep
      (attemptStep ([], none) st.page CStep.closePage env)
      st.context CStep.closeContext env)
    st.playwright CStep.stopPlaywright env

/-- cleanup_browser (scraper.py lines 257-280): the try body attempts the
close steps, the except swallows and logs any failure, and the finally
block unconditionally resets every module-level reference to None. The
returned triple is the final state, the attempted steps, and the logged
error. The function always returns normally. -/
def cleanup_browser (st : GlobalState) (env : CleanupEnv) :
    GlobalState × List CStep × Option String :=
  (emptyState, cleanup_attempts st env)

/-! ## Session Manager: acquisition (scraper.py lines 282-334) -/

/-- Which awaited acquisition step, if any, raises, and otherwise whether
the post-navigation URL matches the authenticated landing pattern and
whether the login interaction raises (the inner try of lines 314-328
catches a login failure and proceeds). -/
inductive InitEnv where
  | startThrows (msg : String)
  | launchThrows (msg : String)
  | newPageThrows (msg : String)
  | gotoThrows (msg : String)
  | navigated (loggedIn : Bool) (loginThrows : Option String)
deriving DecidableEq

/-- Python truthiness test of line 317: not email or not password. An
absent argument and an empty string are both falsy. -/
def credsMissing (email password : Option String) : Bool :=
  email.getD "" == "" || password.getD "" == ""

/-- init_browser (scraper.py lines 282-334). If the scraper reference is
set it is returned unchanged (lines 298-299). Otherwise the launch steps
assign the module references one by one, so an exception at a given step
leaves the earlier references set; the outer except catches any such
exception and returns None (lines 332-334). With navigation done, a
missing-credentials state returns None (lines 317-318) with the browser
left open; otherwise the scraper is created (line 330) even when the login
interaction raised, since the inner except only logs (lines 327-328). The
boolean result is whether a scraper instance (rather than None) was
returned. -/
def init_browser (st : GlobalState) (email password : Option String)
    (env : InitEnv) : GlobalState × Bool :=
  if st.scraper then (st, true)
  else match env with
  | .startThrows _ => (st, false)
  | .launchThrows _ => ({ st with playwright := true }, false)
  | .newPageThrows _ => ({ st with playwright := true, context := true }, false)
  | .gotoThrows _ => ({ st with playwright := true, context := true, page := true }, false)
  | .navigated loggedIn _ =>
    let st1 : GlobalState := { st with playwright := true, context := true, page := true }
    if loggedIn then ({ st1 with scraper := true }, true)
    else if credsMissing email password then (st1, false)
    else ({ st1 with scraper := true }, true)

/-! ## Sync Facade (scraper.py lines 336-422) -/

/-- Observable events of one facade call, in order: the acquisition
attempt, the extraction run, the cleanup_browser run, and the final string
handed to the caller. -/
inductive Event where
  | acquire
  | extractRun
  | cleanupRun
  | returned (s : String)
deriving DecidableEq

/-- The sentinel returned when init_browser yields None
(scraper.py lines 345-346 and 362-363). -/
def credsSentinel : String := "Please provide De Vinci credentials."

/-- The async facade body shared by get_courses_async and
get_deadlines_async (scraper.py lines 336-368): init_browser, then either
the sentinel early return or the extraction (whose behaviour, including
raising, is the parameter extract), then cleanup_browser in the finally
block; an extraction exception propagates only after cleanup ran. Returns
the final state, the normal-or-raised outcome, and the event trace. -/
def facade_async (st : GlobalState) (email password : Option String)
    (ienv : InitEnv) (cenv : CleanupEnv) (extract : Except String String) :
    GlobalState × Except String String × List Event :=
  let ib := init_browser st email password ienv
  let body : Except String String := if ib.2 then extract else Except.ok credsSentinel
  let pre : List Event := if ib.2 then [Event.acquire, Event.extractRun] else [Event.acquire]
  let cb := cleanup_browser ib.1 cenv
  (cb.1, body, pre ++ [Event.cleanupRun])

/-- Whether the event-loop setup of the blocking wrapper raises
(scraper.py lines 377-384). -/
inductive LoopEnv where
  | ok
  | setupThrows (msg : String)
deriving DecidableEq

/-- The blocking wrapper body shared by get_courses_blocking and
get_deadlines_blocking (scraper.py lines 370-422): loop setup, run the
async facade to completion, catch any exception and render it as an error
string. Returns the final state, the string handed to the caller, and the
event trace ending with the returned value. -/
def run_facade_blocking (lenv : LoopEnv) (st : GlobalState)
    (email password : Option String) (ienv : InitEnv) (cenv : CleanupEnv)
    (extract : Except String String) : GlobalState × String × List Event :=
  match lenv with
  | .setupThrows m => (st, errorDisplay m, [Event.returned (errorDisplay m)])
  | .ok =>
    let fa := facade_async st email password ienv cenv extract
    let s := match fa.2.1 with
      | Except.ok r => r
      | Except.error e => errorDisplay e
    (fa.1, s, fa.2.2 ++ [Event.returned s])

/-- get_courses_blocking (scraper.py lines 370-395): the blocking wrapper
over get_courses_async, whose extraction is get_course_list through the
get_all_courses alias (lines 245-247 and 347). -/
def get_courses_blocking (lenv : LoopEnv) (st : GlobalState)
    (email password : Option String) (ienv : InitEnv) (cenv : CleanupEnv)
    (penv : PipeEnv) (p : CoursePage) (items : List CourseItemDOM) :
    GlobalState × String × List Event :=
  run_facade_blocking lenv st email password ienv cenv
    (Except.ok (get_course_list penv true p items))

/-- get_deadlines_blocking (scraper.py lines 397-422): the blocking wrapper
over get_deadlines_async, whose extraction is get_timeline_events
(line 364). -/
def get_deadlines_blocking (lenv : LoopEnv) (st : GlobalState)
    (email password : Option String) (ienv : InitEnv) (cenv : CleanupEnv)
    (penv : PipeEnv) (groups : List TimelineGroupDOM) :
    GlobalState × String × List Event :=
  run_facade_blocking lenv st email password ienv cenv
    (Except.ok (get_timeline_events penv true groups))

/-! ## Concrete test fixtures -/

/-- Three course items of which the middle one has a content column but no
name link. -/
def exCourses : List CourseItemDOM :=
  [ ⟨some ⟨some ("Algebra", "https://moodle/a"), some "Math", some "Linear maps", none⟩⟩,
    ⟨some ⟨none, some "Sci", none, none⟩⟩,
    ⟨some ⟨some ("Chemistry", "https://moodle/c"), none, none, some "50% terminé"⟩⟩ ]

/-- Two timeline groups: the first event has no discoverable date heading,
the second inherits its group heading. -/
def exGroups : List TimelineGroupDOM :=
  [ ⟨none, [⟨some ("Essay", "https://moodle/e"), some "10:00"⟩]⟩,
    ⟨some "Friday, 12 May", [⟨some ("Quiz", "https://moodle/q"), some "23:59"⟩]⟩ ]

/-- One timeline group of three items of which the middle one lacks a name
link. -/
def exGroupsMissingLink : List TimelineGroupDOM :=
  [ ⟨some "Monday", [⟨some ("Lab", "https://moodle/l"), some "09:00"⟩,
                     ⟨none, some "11:00"⟩,
                     ⟨some ("Test", "https://moodle/t"), none⟩]⟩ ]

/-- A page in card mode whose dropdown exists but whose summary option is
absent. -/
def exPageNoOption : CoursePage := ⟨true, "card", true, false, false, "card"⟩


/-! ## Helper lemmas -/

/-- The length of a filterMap equals the count of elements mapped to some. -/
theorem length_filterMap_isSome {α β : Type} (f : α → Option β) (l : List α) :
    (l.filterMap f).length = l.countP (fun a => (f a).isSome) := by
  induction l with
  | nil => rfl
  | cons a t ih =>
    cases h : f a <;> simp [List.filterMap_cons, h, List.countP_cons, ih]

/-- No string of the empty-result-sentinel shape equals an error display
value: the error display always starts with the letter E. -/
theorem no_courses_ne_errorDisplay (m : String) : "No courses found." ≠ errorDisplay m := by
  intro h
  have h2 := congrArg String.data h
  rw [errorDisplay, String.data_append] at h2
  injection h2 with h3 _
  exact absurd h3 (by decide)

/-- The deadline empty-result sentinel likewise differs from every error
display value. -/
theorem no_deadlines_ne_errorDisplay (m : String) : "No deadlines found." ≠ errorDisplay m := by
  intro h
  have h2 := congrArg String.data h
  rw [errorDisplay, String.data_append] at h2
  injection h2 with h3 _
  exact absurd h3 (by decide)

/-- Classification of the blocking-wrapper result: an error display string,
the credentials sentinel, or the successful extraction payload. -/
theorem blocking_classify (lenv : LoopEnv) (st : GlobalState)
    (email password : Option String) (ienv : InitEnv) (cenv : CleanupEnv)
    (extract : Except String String) :
    (∃ m, (run_facade_blocking lenv st email password ienv cenv extract).2.1 = errorDisplay m)
    ∨ (run_facade_blocking lenv st email password ienv cenv extract).2.1 = credsSentinel
    ∨ (∃ s, extract = Except.ok s
        ∧ (run_facade_blocking lenv st email password ienv cenv extract).2.1 = s) := by
  cases lenv with
  | setupThrows m => exact Or.inl ⟨m, rfl⟩
  | ok =>
    by_cases hib : (init_browser st email password ienv).2 = true
    · cases extract with
      | ok s =>
        exact Or.inr (Or.inr ⟨s, rfl, by simp [run_facade_blocking, facade_async, hib]⟩)
      | error e =>
        exact Or.inl ⟨e, by simp [run_facade_blocking, facade_async, hib]⟩
    · exact Or.inr (Or.inl (by simp [run_facade_blocking, facade_async, hib, credsSentinel]))

/-! ## Claims -/

/-- C1: every blocking facade call returns exactly one string and never
raises: the result is an error display string carrying the underlying
message, the credentials sentinel, or the extraction payload; this holds
for the generic blocking runner under every environment and extraction
behaviour, and for both named wrappers, whose payload is the pipeline
display string. -/
theorem c1_blocking_facade_total (lenv : LoopEnv) (st : GlobalState)
    (email password : Option String) (ienv : InitEnv) (cenv : CleanupEnv)
    (extract : Except String String) (penv : PipeEnv) (p : CoursePage)
    (items : List CourseItemDOM) (groups : List TimelineGroupDOM) :
    ((∃ m, (run_facade_blocking lenv st email password ienv cenv extract).2.1 = errorDisplay m)
      ∨ (run_facade_blocking lenv st email password ienv cenv extract).2.1 = credsSentinel
      ∨ (∃ s, extract = Except.ok s
          ∧ (run_facade_blocking lenv st email password ienv cenv extract).2.1 = s))
    ∧ ((∃ m, (get_courses_blocking lenv st email password ienv cenv penv p items).2.1 = errorDisplay m)
      ∨ (get_courses_blocking lenv st email password ienv cenv penv p items).2.1 = credsSentinel
      ∨ (get_courses_blocking lenv st email password ienv cenv penv p items).2.1
          = get_course_list penv true p items)
    ∧ ((∃ m, (get_deadlines_blocking lenv st email password ienv cenv penv groups).2.1 = errorDisplay m)
      ∨ (get_deadlines_blocking lenv st email password ienv cenv penv groups).2.1 = credsSentinel
      ∨ (get_deadlines_blocking lenv st email password ienv cenv penv groups).2.1
          = get_timeline_events penv true groups) := by
  refine ⟨blocking_classify lenv st email password ienv cenv extract, ?_, ?_⟩
  · rcases blocking_classify lenv st email password ienv cenv
      (Except.ok (get_course_list penv true p items)) with h | h | ⟨s, hs, hr⟩
    · exact Or.inl h
    · exact Or.inr (Or.inl h)
    · exact Or.inr (Or.inr (by rw [get_courses_blocking, hr, ← Except.ok.injEq, ← hs]))
  · rcases blocking_classify lenv st email password ienv cenv
      (Except.ok (get_timeline_events penv true groups)) with h | h | ⟨s, hs, hr⟩
    · exact Or.inl h
    · exact Or.inr (Or.inl h)
    · exact Or.inr (Or.inr (by rw [get_deadlines_blocking, hr, ← Except.ok.injEq, ← hs]))

/-- C2: for every run of the async facade by a blocking wrapper, under
every acquisition, cleanup and extraction behaviour, cleanup_browser runs
exactly once, after acquisition and extraction and before the string result
is handed to the caller. -/
theorem c2_release_once_before_result (st : GlobalState)
    (email password : Option String) (ienv : InitEnv) (cenv : CleanupEnv)
    (extract : Except String String) :
    ∃ pre, Event.cleanupRun ∉ pre
      ∧ (run_facade_blocking LoopEnv.ok st email password ienv cenv extract).2.2
          = pre ++ [Event.cleanupRun,
              Event.returned (run_facade_blocking LoopEnv.ok st email password ienv cenv extract).2.1]
      ∧ List.count Event.cleanupRun
          (run_facade_blocking LoopEnv.ok st email password ienv cenv extract).2.2 = 1 := by
  by_cases hib : (init_browser st email password ienv).2 = true
  · have htr : (run_facade_blocking LoopEnv.ok st email password ienv cenv extract).2.2
        = [Event.acquire, Event.extractRun]
          ++ [Event.cleanupRun, Event.returned
                (run_facade_blocking LoopEnv.ok st email password ienv cenv extract).2.1] := by
      cases extract <;> simp [run_facade_blocking, facade_async, hib]
    refine ⟨[Event.acquire, Event.extractRun], by simp, htr, ?_⟩
    rw [htr, List.count_append]
    rfl
  · have htr : (run_facade_blocking LoopEnv.ok st email password ienv cenv extract).2.2
        = [Event.acquire]
          ++ [Event.cleanupRun, Event.returned
                (run_facade_blocking LoopEnv.ok st email password ienv cenv extract).2.1] := by
      simp [run_facade_blocking, facade_async, hib]
    refine ⟨[Event.acquire], by simp, htr, ?_⟩
    rw [htr, List.count_append]
    rfl


/-- C3 counterexample: three course items of which exactly one (the middle
one) lacks its name link yield three formatted lines, not two: the item
without a name link is emitted as a placeholder line with name Unknown. -/
theorem c3_counterexample :
    (exCourses.countP fun it =>
        (match it.colContent with
         | some col => col.nameLink.isNone
         | none => false)) = 1
    ∧ ((extractCourses exCourses).map formatCourse)
        = ["📚 Algebra (Math)", "📚 Unknown (Sci)", "📚 Chemistry - 50%"]
    ∧ ((extractCourses exCourses).map formatCourse).length = 3 := by
  refine ⟨by decide, by decide, by decide⟩

/-- C3 amended: a timeline item lacking its name link is excluded entirely
(one record per item with a link), but a course item is excluded only when
its content column is absent: a course item with a content column and no
name link is emitted as a placeholder record with name Unknown and url #,
so three course items of which one lacks its name link yield three lines,
while three timeline items of which one lacks its name link yield two. -/
theorem c3_amended_exclusion (groups : List TimelineGroupDOM)
    (items : List CourseItemDOM) (col : ColContent) (h : col.nameLink = none) :
    (extractTimeline groups).length
        = ((groups.flatMap TimelineGroupDOM.items).countP fun it => it.nameLink.isSome)
    ∧ (extractCourses items).length = (items.countP fun it => it.colContent.isSome)
    ∧ extractCourseItem ⟨some col⟩
        = some ⟨"Unknown", "#", (col.catSpan.map jsTrim).getD "N/A",
            (col.summaryDiv.map jsTrim).getD "",
            (col.progressFullText.map fun t =>
              jsTrim (replaceFirstWithEmpty t "terminé")).getD ""⟩
    ∧ ((extractCourses exCourses).map formatCourse).length = 3
    ∧ ((extractTimeline exGroupsMissingLink).map formatEvent).length = 2 := by
  refine ⟨?_, ?_, ?_, by decide, by decide⟩
  · induction groups with
    | nil => rfl
    | cons g gs ih =>
      simp [extractTimeline, List.flatMap_cons, List.countP_append,
        length_filterMap_isSome, Option.isSome_map] at ih ⊢
      omega
  · rw [extractCourses, length_filterMap_isSome]
    congr 1
    funext it
    simp [extractCourseItem, Option.isSome_map]
  · simp [extractCourseItem, h]

/-- C3 amended witness: the placeholder conjunct evaluated at a concrete
content column lacking its name link. -/
theorem c3_amended_exclusion_witness :
    extractCourseItem ⟨some ⟨none, some "Sci", none, none⟩⟩
      = some ⟨"Unknown", "#", "Sci", "", ""⟩ := by
  have h := (c3_amended_exclusion [] [] ⟨none, some "Sci", none, none⟩ rfl).2.2.1
  simpa using h

/-- C4: evidence of the divergence between the code and its own
documentation: when acquisition itself throws at the very first step and
credentials are supplied, init_browser still returns None, so the blocking
facade returns the missing-credentials sentinel rather than a distinct
error string. -/
theorem c4_acquisition_failure_yields_creds_sentinel :
    (init_browser emptyState (some "user@devinci.fr") (some "pw")
        (InitEnv.startThrows "boom")).2 = false
    ∧ credsMissing (some "user@devinci.fr") (some "pw") = false
    ∧ (get_courses_blocking LoopEnv.ok emptyState (some "user@devinci.fr") (some "pw")
        (InitEnv.startThrows "boom") CleanupEnv.allOk PipeEnv.ok exPageNoOption []).2.1
        = credsSentinel
    ∧ (get_deadlines_blocking LoopEnv.ok emptyState (some "user@devinci.fr") (some "pw")
        (InitEnv.startThrows "boom") CleanupEnv.allOk PipeEnv.ok []).2.1
        = credsSentinel := by
  refine ⟨rfl, rfl, rfl, rfl⟩

/-- C5 counterexample: with page, context and playwright references all
set, a failure while closing the page aborts the single guarded block of
cleanup_browser: the context close and the process stop are never
attempted, contrary to the claim that every step is attempted
individually. -/
theorem c5_counterexample :
    (⟨false, true, true, true, true⟩ : GlobalState).context = true
    ∧ (⟨false, true, true, true, true⟩ : GlobalState).playwright = true
    ∧ cleanup_attempts ⟨false, true, true, true, true⟩ (CleanupEnv.pageCloseThrows "closed")
        = ([CStep.closePage], some "closed")
    ∧ CStep.closeContext
        ∉ (cleanup_attempts ⟨false, true, true, true, true⟩
            (CleanupEnv.pageCloseThrows "closed")).1
    ∧ CStep.stopPlaywright
        ∉ (cleanup_attempts ⟨false, true, true, true, true⟩
            (CleanupEnv.pageCloseThrows "closed")).1 := by
  refine ⟨rfl, rfl, rfl, by decide, by decide⟩

/-- C5 amended: cleanup_browser attempts page close, context close and
process stop in that order inside one guarded block, so a failure at an
earlier step is swallowed and logged but skips the remaining close steps;
in every case it returns normally, unconditionally clears every in-memory
reference, and a second call attempts nothing and raises nothing. -/
theorem c5_amended_cleanup (st : GlobalState) (env : CleanupEnv) :
    (cleanup_browser st env).1 = emptyState
    ∧ List.Sublist (cleanup_attempts st env).1
        [CStep.closePage, CStep.closeContext, CStep.stopPlaywright]
    ∧ (env = CleanupEnv.allOk →
        (cleanup_attempts st env).1 =
          (if st.page then [CStep.closePage] else [])
            ++ (if st.context then [CStep.closeContext] else [])
            ++ (if st.playwright then [CStep.stopPlaywright] else []))
    ∧ cleanup_attempts emptyState env = ([], none) := by
  obtain ⟨b, c, pg, sc, pw⟩ := st
  refine ⟨rfl, ?_, ?_, rfl⟩
  · cases pg <;> cases c <;> cases pw <;> cases env <;>
      simp [cleanup_attempts, attemptStep, stepThrow]
  · intro h
    subst h
    cases pg <;> cases c <;> cases pw <;>
      simp [cleanup_attempts, attemptStep, stepThrow]

/-- C5 amended witness: the amended theorem evaluated with every reference
set and no step failing: all three steps are attempted in source order and
the state is cleared. -/
theorem c5_amended_cleanup_witness :
    (cleanup_browser ⟨false, true, true, true, true⟩ CleanupEnv.allOk).1 = emptyState
    ∧ (cleanup_attempts ⟨false, true, true, true, true⟩ CleanupEnv.allOk).1
        = [CStep.closePage, CStep.closeContext, CStep.stopPlaywright] := by
  have h := c5_amended_cleanup ⟨false, true, true, true, true⟩ CleanupEnv.allOk
  exact ⟨h.1, by simpa using h.2.2.1 rfl⟩

/-- C9: the in-memory session never survives one facade call: after every
async facade run, under every environment and extraction behaviour, all
module-level references are back to None; a blocking call entered with the
all-None state also ends in the all-None state even when the loop setup
throws; a fresh acquire on the all-None state creates the scraper anew. -/
theorem c9_session_refs_cleared (st : GlobalState) (email password : Option String)
    (ienv : InitEnv) (cenv : CleanupEnv) (extract : Except String String)
    (lenv : LoopEnv) (loginThrows : Option String) :
    (facade_async st email password ienv cenv extract).1 = emptyState
    ∧ (run_facade_blocking lenv emptyState email password ienv cenv extract).1 = emptyState
    ∧ ((init_browser emptyState email password (InitEnv.navigated true loginThrows)).1).scraper
        = true
    ∧ emptyState.scraper = false := by
  refine ⟨rfl, ?_, rfl, rfl⟩
  cases lenv <;> rfl


/-- C6: every timeline item with a name link yields a record whose title
and url come from the link, whose time is the trimmed secondary text or
the empty string when that node is absent, and whose date is the trimmed
text of the preceding date-group heading or the Unknown date sentinel
(date is a total string, never null) when no heading is discoverable; in
the two-event scenario where the first heading is missing, the first line
reports the sentinel and the second its group heading text. -/
theorem c6_timeline_record_fields (dh : Option String) (t u : String)
    (te : Option String) :
    extractTimeline [⟨dh, [⟨some (t, u), te⟩]⟩]
      = [⟨(dh.map jsTrim).getD "Unknown date", jsTrim t, u, (te.map jsTrim).getD ""⟩]
    ∧ ((extractTimeline exGroups).map formatEvent)
      = ["⏰ Unknown date 10:00 - Essay", "⏰ Friday, 12 May 23:59 - Quiz"] := by
  exact ⟨rfl, by decide⟩

/-- C7: force_summary_view returns true exactly when the last read of the
display attribute during the call returned summary; a visible container
already reporting summary mode returns true without clicking the summary
option; and after a false return, course extraction still runs and produces the same display
string as it would standalone. -/
theorem c7_force_summary_view_iff (p : CoursePage) (items : List CourseItemDOM) :
    ((force_summary_view true p).result = true
      ↔ (force_summary_view true p).lastRead = some "summary")
    ∧ (p.containerVisible = true → p.display = "summary" →
        force_summary_view true p = ⟨true, some p.display, false⟩)
    ∧ ((force_summary_view true p).result = false →
        get_course_list PipeEnv.ok true p items = courseListString items) := by
  refine ⟨?_, ?_, fun _ => rfl⟩
  · rw [force_summary_view]
    split_ifs with h1 h2 h3 h4 h5 <;> simp_all
  · intro hv h
    rw [force_summary_view]
    split_ifs <;> simp_all

/-- C7 witness: the iff, the no-toggle case, and the degraded-extraction
case, each at a concrete page. -/
theorem c7_force_summary_view_iff_witness :
    (force_summary_view true exPageNoOption).result = false
    ∧ get_course_list PipeEnv.ok true exPageNoOption exCourses = courseListString exCourses
    ∧ force_summary_view true ⟨true, "summary", true, false, true, "card"⟩
        = ⟨true, some "summary", false⟩ := by
  refine ⟨by decide, (c7_force_summary_view_iff exPageNoOption exCourses).2.2 (by decide),
    (c7_force_summary_view_iff ⟨true, "summary", true, false, true, "card"⟩ []).2.1 rfl rfl⟩

/-- C8: with zero matching items each pipeline returns its defined
empty-result sentinel, which is not the empty string; with at least one
record the result is the newline-join of exactly one formatted line per
record; and each sentinel is distinct from every execution-error display
value. -/
theorem c8_empty_sentinel_and_join (items : List CourseItemDOM)
    (groups : List TimelineGroupDOM) (m : String) :
    (extractCourses items = [] → courseListString items = "No courses found.")
    ∧ (extractCourses items ≠ [] →
        courseListString items
          = String.intercalate "\n" ((extractCourses items).map formatCourse))
    ∧ ((extractCourses items).map formatCourse).length = (extractCourses items).length
    ∧ (extractTimeline groups = [] → timelineString groups = "No deadlines found.")
    ∧ (extractTimeline groups ≠ [] →
        timelineString groups
          = String.intercalate "\n" ((extractTimeline groups).map formatEvent))
    ∧ ((extractTimeline groups).map formatEvent).length = (extractTimeline groups).length
    ∧ "No courses found." ≠ "" ∧ "No deadlines found." ≠ ""
    ∧ "No courses found." ≠ errorDisplay m
    ∧ "No deadlines found." ≠ errorDisplay m := by
  refine ⟨fun h => by simp [courseListString, h], fun h => by simp [courseListString, h],
    List.length_map _ _, fun h => by simp [timelineString, h],
    fun h => by simp [timelineString, h], List.length_map _ _,
    by decide, by decide, no_courses_ne_errorDisplay m, no_deadlines_ne_errorDisplay m⟩

/-- C8 witness: both sentinels on empty extractions and both joins on
nonempty extractions, at concrete inputs. -/
theorem c8_empty_sentinel_and_join_witness :
    courseListString [] = "No courses found."
    ∧ timelineString [] = "No deadlines found."
    ∧ courseListString exCourses
        = String.intercalate "\n" ((extractCourses exCourses).map formatCourse)
    ∧ timelineString exGroups
        = String.intercalate "\n" ((extractTimeline exGroups).map formatEvent) := by
  refine ⟨(c8_empty_sentinel_and_join [] [] "x").1 rfl,
    (c8_empty_sentinel_and_join [] [] "x").2.2.2.1 rfl,
    (c8_empty_sentinel_and_join exCourses [] "x").2.1 (by decide),
    (c8_empty_sentinel_and_join [] exGroups "x").2.2.2.2.1 (by decide)⟩

/-- C10: a formatted line never depends on the extracted url, and a course
line never depends on the extracted summary: changing those fields leaves
the line unchanged, and each line decomposes into exactly the fixed
course or deadline shape, with the category appended only when nonempty
and distinct from N/A and the progress fragment only when nonempty. -/
theorem c10_line_composition (r : CourseRecord) (u s : String)
    (ev : DeadlineEvent) (u2 : String) :
    formatCourse { r with url := u, summary := s } = formatCourse r
    ∧ formatEvent { ev with url := u2 } = formatEvent ev
    ∧ formatCourse r = "📚 " ++ r.name
        ++ (if r.category ≠ "" ∧ r.category ≠ "N/A" then " (" ++ r.category ++ ")" else "")
        ++ (if r.progress ≠ "" then " - " ++ r.progress else "")
    ∧ formatEvent ev = "⏰ " ++ ev.date ++ " " ++ ev.time ++ " - " ++ ev.title := by
  refine ⟨rfl, rfl, ?_, rfl⟩
  rw [formatCourse]
  split_ifs <;>
    simp only [String.append_assoc, String.append_empty, String.empty_append]

end DeVinci
